import Mathlib

/-!
Shallow embedding of the news_weaver pipeline (Extractor, Transformer,
Loader) and proofs about its orchestration logic: file lifecycle states,
batch selection, the claim step, extraction dispatch by mimetype, the
delivery retry loop, and the Loader's idempotent upsert-or-ignore store.

Status strings of the code map to the spec's abstract state names:
"SCRAPED" is the spec's PENDING, "PROCESSING" is the spec's IN_PROGRESS.
-/

namespace NewsWeaver

/-- Lifecycle status of a ScrapedFile row; the code stores these as the
strings "SCRAPED", "PROCESSING", "PROCESSED_SUCCESSFULLY", "LOAD_FAILED",
"TRANSFORM_FAILED" (transformer.py, extractor.py). -/
inductive Status where
  | SCRAPED
  | PROCESSING
  | PROCESSED_SUCCESSFULLY
  | LOAD_FAILED
  | TRANSFORM_FAILED
deriving DecidableEq, Repr

/-- ScrapedFile row of the pipeline store (class ScrapedFile in
extractor/extractor.py and transformer/transformer.py). -/
structure ScrapedFile where
  id : Nat
  source_id : Nat
  local_path : String
  filename : String
  mimetype : String
  status : Status
  retry_count : Nat
  notes : Option String
deriving DecidableEq, Repr

/-- Source row of the pipeline store (class Source in
extractor/extractor.py); last_scraped_at is an optional timestamp. -/
structure Source where
  id : Nat
  url : String
  source_type : String
  schedule : String
  last_scraped_at : Option Nat
deriving DecidableEq, Repr

/-- The status filter of the Transformer batch query:
ScrapedFile.status.in_(["SCRAPED", "LOAD_FAILED"]) in transformer.py main(). -/
def statusEligible (s : Status) : Bool :=
  match s with
  | .SCRAPED => true
  | .LOAD_FAILED => true
  | _ => false

/-- Batch selection of transformer.py main():
session.query(ScrapedFile).filter(status in ["SCRAPED","LOAD_FAILED"]).limit(50). -/
def selectBatch (db : List ScrapedFile) : List ScrapedFile :=
  (db.filter (fun f => statusEligible f.status)).take 50

/-! ## Loader (loader/loader.py): typed rows, payload schemas, endpoints -/

/-- Stored row of the articles table (class Article in loader.py); the
autoincrement surrogate id and ingested_at timestamp are omitted, they play
no role in the dedup logic. -/
structure ArticleRow where
  source_file_id : Nat
  url : String
  title : Option String
  content : String
  language : Option String
deriving DecidableEq, Repr

/-- Stored row of the documents table (class Document in loader.py). -/
structure DocumentRow where
  source_file_id : Nat
  url : String
  filename : String
  mimetype : String
  content : String
deriving DecidableEq, Repr

/-- Stored row of the spreadsheets table (class Spreadsheet in loader.py);
data_json holds the json.dumps serialization of the row list. -/
structure SpreadsheetRow where
  source_file_id : Nat
  url : String
  filename : String
  mimetype : String
  data_json : String
deriving DecidableEq, Repr

/-- Stored row of the images table (class Image in loader.py);
detected_objects and image_metadata hold json.dumps serializations. -/
structure ImageRow where
  source_file_id : Nat
  url : String
  mimetype : String
  extracted_text : Option String
  detected_objects : Option String
  image_metadata : Option String
deriving DecidableEq, Repr

/-- The Loader's data store: one table per content kind
(Base.metadata in loader.py). -/
structure DataStore where
  articles : List ArticleRow
  documents : List DocumentRow
  spreadsheets : List SpreadsheetRow
  images : List ImageRow
deriving DecidableEq, Repr

/-- Pydantic input schema ArticleCreate. -/
structure ArticleCreate where
  source_file_id : Nat
  url : String
  title : Option String
  content : String
  language : Option String
deriving DecidableEq, Repr

/-- Pydantic input schema DocumentCreate. -/
structure DocumentCreate where
  source_file_id : Nat
  url : String
  filename : String
  mimetype : String
  content : String
deriving DecidableEq, Repr

/-- A spreadsheet data row: one dict mapping column header to cell text. -/
def SheetRow : Type := List (String × String)

instance : DecidableEq SheetRow := by
  unfold SheetRow
  exact inferInstance

/-- Pydantic input schema SpreadsheetCreate; data_json is the structured
list of row dicts before serialization. -/
structure SpreadsheetCreate where
  source_file_id : Nat
  url : String
  filename : String
  mimetype : String
  data_json : List SheetRow
deriving DecidableEq

/-- Pydantic input schema ImageCreate. -/
structure ImageCreate where
  source_file_id : Nat
  url : String
  mimetype : String
  extracted_text : Option String
  detected_objects : Option (List String)
  image_metadata : Option (List (String × String))
deriving DecidableEq

/-- Responses of the Loader endpoints: "Already exists" short-circuit or
the 201 success body. -/
inductive LoaderResponse where
  | success
  | alreadyExists
deriving DecidableEq, Repr

/-- Concrete stand-in for Python json.dumps on a list of row dicts; the
store only needs some definite string encoding of the structured value. -/
def encodeRows (rows : List SheetRow) : String :=
  String.intercalate ";" (rows.map (fun r =>
    String.intercalate "," (r.map (fun kv => kv.1 ++ ":" ++ kv.2))))

/-- Concrete stand-in for json.dumps on a string list. -/
def encodeStrings (xs : List String) : String :=
  String.intercalate "," xs

/-- Concrete stand-in for json.dumps on a string-keyed dict. -/
def encodeDict (xs : List (String × String)) : String :=
  String.intercalate "," (xs.map (fun kv => kv.1 ++ ":" ++ kv.2))

/-- POST /articles handler (create_article in loader.py): look up by
source_file_id; if present answer "Already exists" and leave the store
alone, else insert one Article row. -/
def create_article (db : DataStore) (item : ArticleCreate) :
    LoaderResponse × DataStore :=
  if db.articles.any (fun a => a.source_file_id == item.source_file_id) then
    (.alreadyExists, db)
  else
    (.success, { db with articles := db.articles ++
      [{ source_file_id := item.source_file_id, url := item.url,
         title := item.title, content := item.content,
         language := item.language }] })

/-- POST /documents handler (create_document in loader.py). -/
def create_document (db : DataStore) (item : DocumentCreate) :
    LoaderResponse × DataStore :=
  if db.documents.any (fun a => a.source_file_id == item.source_file_id) then
    (.alreadyExists, db)
  else
    (.success, { db with documents := db.documents ++
      [{ source_file_id := item.source_file_id, url := item.url,
         filename := item.filename, mimetype := item.mimetype,
         content := item.content }] })

/-- POST /spreadsheets handler (create_spreadsheet in loader.py);
data_json is serialized to a string before storage. -/
def create_spreadsheet (db : DataStore) (item : SpreadsheetCreate) :
    LoaderResponse × DataStore :=
  if db.spreadsheets.any (fun a => a.source_file_id == item.source_file_id) then
    (.alreadyExists, db)
  else
    (.success, { db with spreadsheets := db.spreadsheets ++
      [{ source_file_id := item.source_file_id, url := item.url,
         filename := item.filename, mimetype := item.mimetype,
         data_json := encodeRows item.data_json }] })

/-- POST /images handler (create_image in loader.py); list/dict fields are
serialized to strings, empty defaults "[]" and "\x7b\x7d" when absent. -/
def create_image (db : DataStore) (item : ImageCreate) :
    LoaderResponse × DataStore :=
  if db.images.any (fun a => a.source_file_id == item.source_file_id) then
    (.alreadyExists, db)
  else
    (.success, { db with images := db.images ++
      [{ source_file_id := item.source_file_id, url := item.url,
         mimetype := item.mimetype, extracted_text := item.extracted_text,
         detected_objects := some (match item.detected_objects with
           | some (x :: xs) => encodeStrings (x :: xs)
           | _ => "[]"),
         image_metadata := some (match item.image_metadata with
           | some (x :: xs) => encodeDict (x :: xs)
           | _ => "\x7b\x7d") }] })

/-- A request to any of the four Loader endpoints. -/
inductive LoaderRequest where
  | art (item : ArticleCreate)
  | doc (item : DocumentCreate)
  | sheet (item : SpreadsheetCreate)
  | img (item : ImageCreate)
deriving DecidableEq

/-- The source_file_id idempotency key carried by any request. -/
def LoaderRequest.key : LoaderRequest → Nat
  | .art i => i.source_file_id
  | .doc i => i.source_file_id
  | .sheet i => i.source_file_id
  | .img i => i.source_file_id

/-- Dispatch a request to its endpoint handler. -/
def loaderPost (db : DataStore) (r : LoaderRequest) :
    LoaderResponse × DataStore :=
  match r with
  | .art i => create_article db i
  | .doc i => create_document db i
  | .sheet i => create_spreadsheet db i
  | .img i => create_image db i

/-- Number of records with the request's key in the request's own table. -/
def storedCount (db : DataStore) (r : LoaderRequest) : Nat :=
  match r with
  | .art i => (db.articles.filter
      (fun a => a.source_file_id == i.source_file_id)).length
  | .doc i => (db.documents.filter
      (fun a => a.source_file_id == i.source_file_id)).length
  | .sheet i => (db.spreadsheets.filter
      (fun a => a.source_file_id == i.source_file_id)).length
  | .img i => (db.images.filter
      (fun a => a.source_file_id == i.source_file_id)).length

/-- Total number of stored records across all four tables. -/
def DataStore.size (db : DataStore) : Nat :=
  db.articles.length + db.documents.length +
  db.spreadsheets.length + db.images.length

/-! ## Delivery Client (send_to_loader in transformer/transformer.py) -/

/-- Outcome of one POST attempt against the Loader as seen by the client:
an HTTP status code, or an httpx.RequestError (network/transport failure). -/
inductive AttemptResult where
  | httpStatus (code : Nat)
  | netError
deriving DecidableEq, Repr

/-- The status codes send_to_loader treats as success: 200 and 201
directly, plus 409 ("duplicate entry", treated as success). -/
def successCode (c : Nat) : Bool :=
  c == 200 || c == 201 || c == 409

/-- Whether one attempt outcome terminates the retry loop with success. -/
def attemptOk (a : AttemptResult) : Bool :=
  match a with
  | .httpStatus c => successCode c
  | .netError => false

/-- Result of a send_to_loader call: the returned boolean, the number of
POST attempts made, and the number of time.sleep(2) backoff waits. -/
structure SendOutcome where
  ok : Bool
  attempts : Nat
  sleeps : Nat
deriving DecidableEq, Repr

/-- The body of the `for attempt in range(3)` loop of send_to_loader,
unrolled over the remaining fuel; `oracle i` is the outcome of the i-th
POST. A 200/201/409 returns True at once; any other status falls through
with no sleep; a RequestError sleeps 2 seconds (counted) and falls
through; an exhausted loop returns False. -/
def sendGo (oracle : Nat → AttemptResult) :
    Nat → Nat → Nat → Nat → SendOutcome
  | 0, _, attempts, sleeps => { ok := false, attempts := attempts, sleeps := sleeps }
  | fuel + 1, i, attempts, sleeps =>
    match oracle i with
    | .httpStatus c =>
      if successCode c then
        { ok := true, attempts := attempts + 1, sleeps := sleeps }
      else
        sendGo oracle fuel (i + 1) (attempts + 1) sleeps
    | .netError =>
      sendGo oracle fuel (i + 1) (attempts + 1) (sleeps + 1)

/-- send_to_loader of transformer/transformer.py, as a function of the
sequence of per-attempt outcomes: three attempts maximum. -/
def send_to_loader (oracle : Nat → AttemptResult) : SendOutcome :=
  sendGo oracle 3 0 0 0

/-- Number of network errors among attempt outcomes at indices i..i+n-1. -/
def netCountFrom (oracle : Nat → AttemptResult) (i : Nat) : Nat → Nat
  | 0 => 0
  | n + 1 =>
    (match oracle i with | .netError => 1 | _ => 0) +
      netCountFrom oracle (i + 1) n

/-- Number of network errors among the attempt outcomes at indices < n. -/
def netCount (oracle : Nat → AttemptResult) (n : Nat) : Nat :=
  netCountFrom oracle 0 n

/-! ## Fetch Dispatcher (extractor/extractor.py) -/

/-- Outcome of the single GET issued for an HTTP/RSS source: a response
with its status and headers, or an httpx.RequestError. -/
inductive FetchResult where
  | netError
  | response (status : Nat) (contentType : Option String) (body : String)
deriving DecidableEq, Repr

/-- get_filename_from_response: prefer the Content-Disposition filename
hint (here already parsed out of the header), else the basename of the
URL path, else the fixed fallback "index.html". -/
def get_filename_from_response (cdFilename : Option String)
    (urlBasename : String) : String :=
  match cdFilename with
  | some n => n
  | none => if urlBasename == "" then "index.html" else urlBasename

/-- save_content: the collision-resistant blob name
"{source_id}_{timestamp}_{filename}" inside the scraped-data directory;
returns the path the ScrapedFile row will record. -/
def save_content (source_id : Nat) (timestamp : Nat) (filename : String) :
    String :=
  "scraped_data/" ++ toString source_id ++ "_" ++ toString timestamp ++
    "_" ++ filename

/-- The Content-Type header processing of process_http_source:
headers.get("Content-Type", "application/octet-stream").split(";")[0]. -/
def contentTypeOf (ct : Option String) : String :=
  (((ct.getD "application/octet-stream").splitOn ";").headD "")

/-- process_http_source of extractor/extractor.py. A network error is
caught and commits nothing. A response with status >= 400 returns before
touching the store. Otherwise the body is persisted, one ScrapedFile row
with status SCRAPED is added and last_scraped_at is set, in one commit.
`now` is the current time, `cdFilename`/`urlBasename` feed the filename
derivation, `nextId` is the row id the insert will receive. -/
def process_http_source (now : Nat) (resp : FetchResult)
    (cdFilename : Option String) (urlBasename : String)
    (source : Source) (db : List ScrapedFile) (nextId : Nat) :
    Source × List ScrapedFile :=
  match resp with
  | .netError => (source, db)
  | .response status ct _body =>
    if 400 ≤ status then
      (source, db)
    else
      let filename := get_filename_from_response cdFilename urlBasename
      let newFile : ScrapedFile :=
        { id := nextId, source_id := source.id,
          local_path := save_content source.id now filename,
          filename := filename, mimetype := contentTypeOf ct,
          status := .SCRAPED, retry_count := 0, notes := none }
      ({ source with last_scraped_at := some now }, db ++ [newFile])

/-- One file found by os.scandir in a local-directory sweep: its name,
stat signature inputs, and the mimetypes.guess_type result for its path. -/
structure DirEntry where
  name : String
  size : Nat
  mtime : Nat
  guessedMime : Option String
deriving DecidableEq, Repr

/-- The cheap change signature "size=..._mtime=..." stored in notes. -/
def entrySignature (e : DirEntry) : String :=
  "size=" ++ toString e.size ++ "_mtime=" ++ toString e.mtime

/-- The duplicate check of process_local_source: is there a ScrapedFile
for this source and filename whose status is SCRAPED or PROCESSING? -/
def hasActive (db : List ScrapedFile) (src : Nat) (fn : String) : Bool :=
  db.any (fun f => f.source_id == src && f.filename == fn &&
    (f.status == .SCRAPED || f.status == .PROCESSING))

/-- Number of rows for (src, fn) in an in-flight status; the spec's
per-source uniqueness invariant bounds this by one. -/
def countActive (db : List ScrapedFile) (src : Nat) (fn : String) : Nat :=
  (db.filter (fun f => f.source_id == src && f.filename == fn &&
    (f.status == .SCRAPED || f.status == .PROCESSING))).length

/-- The spec invariant: for given source and filename, at most one row is
PENDING (SCRAPED) or IN_PROGRESS (PROCESSING). -/
def uniqueActive (db : List ScrapedFile) : Prop :=
  ∀ src fn, countActive db src fn ≤ 1

/-- The ScrapedFile row process_local_source inserts for one swept file:
status SCRAPED, mimetype from the guess (octet-stream fallback), notes
carrying the change signature. -/
def freshRow (now srcId nid : Nat) (e : DirEntry) : ScrapedFile :=
  { id := nid, source_id := srcId,
    local_path := save_content srcId now e.name,
    filename := e.name,
    mimetype := e.guessedMime.getD "application/octet-stream",
    status := .SCRAPED, retry_count := 0,
    notes := some (entrySignature e) }

/-- Loop body of process_local_source for one directory entry: skip when
an active row for (source, filename) exists, else copy the blob and add a
row with status SCRAPED and the signature in notes. The accumulator
carries the store and the next row id. -/
def ingest_entry (now : Nat) (srcId : Nat)
    (acc : List ScrapedFile × Nat) (e : DirEntry) :
    List ScrapedFile × Nat :=
  if hasActive acc.1 srcId e.name then
    acc
  else
    (acc.1 ++ [freshRow now srcId acc.2 e], acc.2 + 1)

/-- process_local_source of extractor/extractor.py: when the directory
exists, sweep its entries with ingest_entry (the duplicate check sees
rows added earlier in the same sweep, as the autoflushing session does),
then set last_scraped_at and commit; a missing directory changes
nothing. -/
def process_local_source (now : Nat) (dirExists : Bool) (source : Source)
    (entries : List DirEntry) (db : List ScrapedFile) (nextId : Nat) :
    Source × List ScrapedFile × Nat :=
  if dirExists then
    let swept := entries.foldl (ingest_entry now source.id) (db, nextId)
    ({ source with last_scraped_at := some now }, swept.1, swept.2)
  else
    (source, db, nextId)

/-! ## Transform Dispatcher (transformer/transformer.py) -/

/-- Does the first list start with the second? -/
def charsStart : List Char → List Char → Bool
  | _, [] => true
  | [], _ :: _ => false
  | a :: as, b :: bs => a == b && charsStart as bs

/-- Is the needle a contiguous sublist of the haystack? -/
def charsSub (needle : List Char) : List Char → Bool
  | [] => needle.isEmpty
  | b :: bs => charsStart (b :: bs) needle || charsSub needle bs

/-- The Python containment test `needle in hay` on strings, used by the
mimetype dispatch of process_file_record. -/
def strContains (hay needle : String) : Bool :=
  charsSub needle.toList hay.toList

/-- ASCII lowering of one character, as Python str.lower acts on the
ASCII mimetype strings this pipeline dispatches on. -/
def lowerChar (c : Char) : Char :=
  if 65 ≤ c.toNat && c.toNat ≤ 90 then Char.ofNat (c.toNat + 32) else c

/-- Python str.lower on an ASCII string: file_record.mimetype.lower(). -/
def strToLower (s : String) : String :=
  String.mk (s.data.map lowerChar)

/-- Results of the external extraction libraries on this file, one slot
per strategy (BeautifulSoup title+text, pypdf text, python-docx text,
openpyxl rows, PIL+pytesseract OCR text with raw EXIF tag/value pairs,
and the plain open().read() fallback); .error is a raised exception with
its message. -/
structure ExtractOracle where
  html : Except String (String × String)
  pdf : Except String String
  docx : Except String String
  xlsx : Except String (List SheetRow)
  image : Except String (String × List (Nat × String))
  readText : Except String String

/-- Whitespace test for the Python str.strip modelling. -/
def isSpaceChar (c : Char) : Bool :=
  c == ' ' || c == '\t' || c == '\n' || c == '\r'

/-- Python str.strip on OCR output: drop whitespace from both ends. -/
def strTrim (s : String) : String :=
  String.mk (((s.data.dropWhile isSpaceChar).reverse.dropWhile
    isSpaceChar).reverse)

/-- Result dict of process_image. -/
structure ImageData where
  extracted_text : String
  metadata : List (String × String)
  detected_objects : List String
deriving DecidableEq, Repr

/-- process_image of transformer/transformer.py: OCR text stripped, EXIF
tags filtered to DateTimeOriginal (36867), Make (271) and Model (272) and
stringified, and the fixed stub object-detection list. -/
def process_image (r : Except String (String × List (Nat × String))) :
    Except String ImageData :=
  r.map (fun te =>
    { extracted_text := strTrim te.1,
      metadata := (te.2.filter (fun tv =>
        tv.1 == 36867 || tv.1 == 271 || tv.1 == 272)).map
          (fun tv => (toString tv.1, tv.2)),
      detected_objects := ["object_detection_model_not_loaded"] })

/-- The kind-specific part of the payload dict built by
process_file_record. -/
inductive PayloadBody where
  | article (title content language : String)
  | document (filename content : String)
  | spreadsheet (filename : String) (data_json : List SheetRow)
  | image (extracted_text : String) (detected_objects : List String)
      (image_metadata : List (String × String))
deriving DecidableEq

/-- The payload dict handed to send_to_loader: the base fields set up
front plus the kind-specific update. -/
structure Payload where
  source_file_id : Nat
  url : String
  mimetype : String
  body : PayloadBody
deriving DecidableEq

/-- The TRANSFORM step of process_file_record: lower-case the mimetype,
dispatch by substring to an extraction strategy, and build the endpoint
name and payload; an unmatched, non-text mimetype raises
ValueError("Unsupported mimetype: ..."). Errors of the strategies
propagate as the exception message. -/
def extract_payload (fr : ScrapedFile) (source_url : String)
    (o : ExtractOracle) : Except String (String × Payload) :=
  let mime := strToLower fr.mimetype
  let base := fun b =>
    ({ source_file_id := fr.id, url := source_url, mimetype := mime,
       body := b } : Payload)
  if strContains mime "html" then
    o.html.map (fun tc => ("articles", base (.article tc.1 tc.2 "en")))
  else if strContains mime "pdf" || strContains mime "wordprocessing" then
    (if strContains mime "pdf" then o.pdf else o.docx).map
      (fun c => ("documents", base (.document fr.filename c)))
  else if strContains mime "spreadsheet" || strContains mime "excel" then
    o.xlsx.map (fun d => ("spreadsheets", base (.spreadsheet fr.filename d)))
  else if strContains mime "image" then
    (process_image o.image).map (fun d =>
      ("images", base (.image d.extracted_text d.detected_objects d.metadata)))
  else if strContains mime "text" then
    o.readText.map (fun c => ("documents", base (.document fr.filename c)))
  else
    .error ("Unsupported mimetype: " ++ mime)

/-- The Source lookup of process_file_record:
source.url if the owning Source row exists, else "unknown_source". -/
def resolveSourceUrl (sources : List Source) (fr : ScrapedFile) : String :=
  match sources.find? (fun s => s.id == fr.source_id) with
  | some s => s.url
  | none => "unknown_source"

/-- Observable outcome of process_file_record on one row: the committed
row, the delivery handed to send_to_loader (none when no delivery was
attempted), and whether the extraction block was entered at all. -/
structure ProcessResult where
  record : ScrapedFile
  delivered : Option (String × Payload)
  extractionAttempted : Bool

/-- process_file_record of transformer/transformer.py. A missing blob
commits TRANSFORM_FAILED / "File not found on disk" and returns before
extraction. The owning Source is resolved for the payload URL, with
"unknown_source" when absent. An extraction exception commits
TRANSFORM_FAILED with the message and skips delivery. Otherwise the
payload goes to send_to_loader: True commits PROCESSED_SUCCESSFULLY and
clears notes, False commits LOAD_FAILED with a note. -/
def process_file_record (fileExists : Bool) (sources : List Source)
    (o : ExtractOracle) (loader : Nat → AttemptResult)
    (fr : ScrapedFile) : ProcessResult :=
  if !fileExists then
    { record := { fr with
        status := .TRANSFORM_FAILED,
        notes := some "File not found on disk" },
      delivered := none, extractionAttempted := false }
  else
    match extract_payload fr (resolveSourceUrl sources fr) o with
    | .error msg =>
      { record := { fr with status := .TRANSFORM_FAILED, notes := some msg },
        delivered := none, extractionAttempted := true }
    | .ok ep =>
      if (send_to_loader loader).ok then
        { record := { fr with status := .PROCESSED_SUCCESSFULLY, notes := none },
          delivered := some ep, extractionAttempted := true }
      else
        { record := { fr with
            status := .LOAD_FAILED,
            notes := some "API unreachable or returned error" },
          delivered := some ep, extractionAttempted := true }

/-- The ids of the rows a batch selection returns. -/
def batchIds (db : List ScrapedFile) : List Nat :=
  (selectBatch db).map (fun f => f.id)

/-- The claim step of main(): set status PROCESSING on every row of the
batch and commit. -/
def markProcessing (ids : List Nat) (db : List ScrapedFile) :
    List ScrapedFile :=
  db.map (fun f =>
    if ids.contains f.id then { f with status := .PROCESSING } else f)

/-- Commit of one mutated row back into the store. -/
def updateRecord (db : List ScrapedFile) (r : ScrapedFile) :
    List ScrapedFile :=
  db.map (fun g => if g.id == r.id then r else g)

/-- Per-file environment of one Transform run: the os.path.exists answer,
the extraction-library results and the Loader attempt outcomes for that
file. -/
structure FileEnv where
  fileExists : Bool
  oracle : ExtractOracle
  loader : Nat → AttemptResult

/-- main() of transformer/transformer.py: select the batch, mark every
selected row PROCESSING and commit, then process the claimed rows one at
a time (sequentially, as the code does for SQLite safety), committing
each row's terminal state independently. -/
def main_transform (sources : List Source) (env : Nat → FileEnv)
    (db : List ScrapedFile) : List ScrapedFile :=
  let pending := selectBatch db
  let db1 := markProcessing (pending.map (fun f => f.id)) db
  pending.foldl (fun acc f =>
    let e := env f.id
    updateRecord acc (process_file_record e.fileExists sources e.oracle
      e.loader { f with status := .PROCESSING }).record) db1

/-! ## Two concurrent Transform runs: the claim-step race -/

/-- Joint state of two Transform runs A and B over one shared store: each
run's program counter (0 = about to select, 1 = selected, about to mark
and commit, 2 = claimed) and its selected batch of row ids. -/
structure TwoRunState where
  db : List ScrapedFile
  pcA : Nat
  batchA : List Nat
  pcB : Nat
  batchB : List Nat
deriving DecidableEq

/-- Interleaving semantics of two concurrent Transform runs at the
granularity the code gives: the batch read and the mark-PROCESSING commit
are two separate store operations with no row lock or compare-and-set
between them. -/
inductive TStep : TwoRunState → TwoRunState → Prop where
  | selectA (s : TwoRunState) (h : s.pcA = 0) :
      TStep s { s with batchA := batchIds s.db, pcA := 1 }
  | claimA (s : TwoRunState) (h : s.pcA = 1) :
      TStep s { s with db := markProcessing s.batchA s.db, pcA := 2 }
  | selectB (s : TwoRunState) (h : s.pcB = 0) :
      TStep s { s with batchB := batchIds s.db, pcB := 1 }
  | claimB (s : TwoRunState) (h : s.pcB = 1) :
      TStep s { s with db := markProcessing s.batchB s.db, pcB := 2 }

/-- Initial joint state: both runs about to select. -/
def initState (db : List ScrapedFile) : TwoRunState :=
  { db := db, pcA := 0, batchA := [], pcB := 0, batchB := [] }

/-- Reachability of a joint state from the initial state on a store. -/
def Reach (db : List ScrapedFile) (s : TwoRunState) : Prop :=
  Relation.ReflTransGen TStep (initState db) s

/-! ## Helper lemmas -/

lemma any_true_iff_count_pos {α : Type} (p : α → Bool) (l : List α) :
    l.any p = true ↔ 1 ≤ (l.filter p).length := by
  induction l with
  | nil => simp
  | cons a l ih =>
    by_cases h : p a = true
    · simp [h, List.filter_cons]
    · simp only [List.any_cons, List.filter_cons, h]
      simpa using ih

lemma any_false_iff_count_zero {α : Type} (p : α → Bool) (l : List α) :
    l.any p = false ↔ (l.filter p).length = 0 := by
  have h := any_true_iff_count_pos p l
  constructor
  · intro hf
    by_contra hne
    have h1 : l.any p = true := h.mpr (Nat.one_le_iff_ne_zero.mpr hne)
    rw [hf] at h1
    exact Bool.false_ne_true h1
  · intro hz
    cases hb : l.any p with
    | false => rfl
    | true => have := h.mp hb; omega

lemma statusEligible_iff (s : Status) :
    statusEligible s = true ↔ (s = .SCRAPED ∨ s = .LOAD_FAILED) := by
  cases s <;> simp [statusEligible]

/-- C2: a row is selected by the Transformer batch query only if its
status is SCRAPED (the spec's PENDING) or LOAD_FAILED; rows in
TRANSFORM_FAILED or PROCESSED_SUCCESSFULLY are never selected; and an
eligible row in the store is selected whenever the eligible rows fit in
the batch limit of 50, so a LOAD_FAILED row stays selectable until its
status changes. -/
theorem batch_selection_eligibility (db : List ScrapedFile) (f : ScrapedFile) :
    (f ∈ selectBatch db → f.status = .SCRAPED ∨ f.status = .LOAD_FAILED) ∧
    ((f.status = .TRANSFORM_FAILED ∨ f.status = .PROCESSED_SUCCESSFULLY) →
      f ∉ selectBatch db) ∧
    (f ∈ db → (f.status = .SCRAPED ∨ f.status = .LOAD_FAILED) →
      (db.filter (fun g => statusEligible g.status)).length ≤ 50 →
      f ∈ selectBatch db) := by
  refine ⟨?_, ?_, ?_⟩
  · intro hf
    have hmem : f ∈ db.filter (fun g => statusEligible g.status) :=
      List.take_subset 50 _ hf
    have := (List.mem_filter.mp hmem).2
    exact (statusEligible_iff f.status).mp this
  · rintro (h | h) hf
    · have hmem : f ∈ db.filter (fun g => statusEligible g.status) :=
        List.take_subset 50 _ hf
      have := (List.mem_filter.mp hmem).2
      rw [h] at this
      simp [statusEligible] at this
    · have hmem : f ∈ db.filter (fun g => statusEligible g.status) :=
        List.take_subset 50 _ hf
      have := (List.mem_filter.mp hmem).2
      rw [h] at this
      simp [statusEligible] at this
  · intro hdb helig hlen
    have hmem : f ∈ db.filter (fun g => statusEligible g.status) :=
      List.mem_filter.mpr ⟨hdb, (statusEligible_iff f.status).mpr helig⟩
    unfold selectBatch
    rw [List.take_of_length_le hlen]
    exact hmem

/-- Example LOAD_FAILED row for concrete evaluations. -/
def exRowLF : ScrapedFile :=
  { id := 7, source_id := 1, local_path := "scraped_data/1_5_a.html",
    filename := "a.html", mimetype := "text/html", status := .LOAD_FAILED,
    retry_count := 0, notes := some "API unreachable or returned error" }

/-- Witness for batch_selection_eligibility: a concrete LOAD_FAILED row
alone in the store is selected. -/
theorem batch_selection_eligibility_witness :
    exRowLF ∈ selectBatch [exRowLF] :=
  (batch_selection_eligibility [exRowLF] exRowLF).2.2
    (by simp) (Or.inr rfl) (by simp [statusEligible, exRowLF])

lemma insert_count_one {α : Type} (p : α → Bool) (tbl : List α) (row : α)
    (h0 : (tbl.filter p).length = 0) (hrow : p row = true) :
    ((tbl ++ [row]).filter p).length = 1 := by
  rw [List.filter_append, List.length_append]
  simp [hrow, h0]

/-- C1: each Loader endpoint is an upsert-or-ignore keyed by
source_file_id. A request whose key is already stored answers
"Already exists" and leaves the store untouched; a fresh key answers
success, stores exactly one record with that key, and grows the store by
exactly one row; hence delivering the same payload twice stores one
record, the second call answering "Already exists" and mutating
nothing. -/
theorem loader_idempotent_delivery (db : DataStore) (r : LoaderRequest) :
    (1 ≤ storedCount db r → loaderPost db r = (.alreadyExists, db)) ∧
    (storedCount db r = 0 →
      (loaderPost db r).1 = .success ∧
      storedCount (loaderPost db r).2 r = 1 ∧
      ((loaderPost db r).2).size = db.size + 1) ∧
    (storedCount db r = 0 →
      (loaderPost (loaderPost db r).2 r).1 = .alreadyExists ∧
      (loaderPost (loaderPost db r).2 r).2 = (loaderPost db r).2) := by
  rcases r with i | i | i | i
  · refine ⟨fun h => ?_, fun h => ?_, fun h => ?_⟩
    · simp only [storedCount] at h
      have hany := (any_true_iff_count_pos _ db.articles).mpr h
      simp [loaderPost, create_article, hany]
    · simp only [storedCount] at h
      have hany := (any_false_iff_count_zero _ db.articles).mpr h
      refine ⟨?_, ?_, ?_⟩
      · simp [loaderPost, create_article, hany]
      · simp only [loaderPost, create_article, hany, Bool.false_eq_true,
          if_false, storedCount]
        exact insert_count_one _ _ _ h (by simp)
      · simp only [loaderPost, create_article, hany, Bool.false_eq_true,
          if_false, DataStore.size]
        simp only [List.length_append, List.length_singleton]
        omega
    · simp only [storedCount] at h
      have hany := (any_false_iff_count_zero _ db.articles).mpr h
      simp only [loaderPost, create_article, hany, Bool.false_eq_true, if_false]
      have hone : (((db.articles ++
          [({ source_file_id := i.source_file_id, url := i.url,
              title := i.title, content := i.content,
              language := i.language } : ArticleRow)]).filter
          (fun a => a.source_file_id == i.source_file_id)).length) = 1 :=
        insert_count_one _ _ _ h (by simp)
      have hany2 := (any_true_iff_count_pos _ _).mpr (le_of_eq hone.symm)
      simp [create_article, hany2]
  · refine ⟨fun h => ?_, fun h => ?_, fun h => ?_⟩
    · simp only [storedCount] at h
      have hany := (any_true_iff_count_pos _ db.documents).mpr h
      simp [loaderPost, create_document, hany]
    · simp only [storedCount] at h
      have hany := (any_false_iff_count_zero _ db.documents).mpr h
      refine ⟨?_, ?_, ?_⟩
      · simp [loaderPost, create_document, hany]
      · simp only [loaderPost, create_document, hany, Bool.false_eq_true,
          if_false, storedCount]
        exact insert_count_one _ _ _ h (by simp)
      · simp only [loaderPost, create_document, hany, Bool.false_eq_true,
          if_false, DataStore.size]
        simp only [List.length_append, List.length_singleton]
        omega
    · simp only [storedCount] at h
      have hany := (any_false_iff_count_zero _ db.documents).mpr h
      simp only [loaderPost, create_document, hany, Bool.false_eq_true, if_false]
      have hone : (((db.documents ++
          [({ source_file_id := i.source_file_id, url := i.url,
              filename := i.filename, mimetype := i.mimetype,
              content := i.content } : DocumentRow)]).filter
          (fun a => a.source_file_id == i.source_file_id)).length) = 1 :=
        insert_count_one _ _ _ h (by simp)
      have hany2 := (any_true_iff_count_pos _ _).mpr (le_of_eq hone.symm)
      simp [create_document, hany2]
  · refine ⟨fun h => ?_, fun h => ?_, fun h => ?_⟩
    · simp only [storedCount] at h
      have hany := (any_true_iff_count_pos _ db.spreadsheets).mpr h
      simp [loaderPost, create_spreadsheet, hany]
    · simp only [storedCount] at h
      have hany := (any_false_iff_count_zero _ db.spreadsheets).mpr h
      refine ⟨?_, ?_, ?_⟩
      · simp [loaderPost, create_spreadsheet, hany]
      · simp only [loaderPost, create_spreadsheet, hany, Bool.false_eq_true,
          if_false, storedCount]
        exact insert_count_one _ _ _ h (by simp)
      · simp only [loaderPost, create_spreadsheet, hany, Bool.false_eq_true,
          if_false, DataStore.size]
        simp only [List.length_append, List.length_singleton]
        omega
    · simp only [storedCount] at h
      have hany := (any_false_iff_count_zero _ db.spreadsheets).mpr h
      simp only [loaderPost, create_spreadsheet, hany, Bool.false_eq_true,
        if_false]
      have hone : (((db.spreadsheets ++
          [({ source_file_id := i.source_file_id, url := i.url,
              filename := i.filename, mimetype := i.mimetype,
              data_json := encodeRows i.data_json } : SpreadsheetRow)]).filter
          (fun a => a.source_file_id == i.source_file_id)).length) = 1 :=
        insert_count_one _ _ _ h (by simp)
      have hany2 := (any_true_iff_count_pos _ _).mpr (le_of_eq hone.symm)
      simp [create_spreadsheet, hany2]
  · refine ⟨fun h => ?_, fun h => ?_, fun h => ?_⟩
    · simp only [storedCount] at h
      have hany := (any_true_iff_count_pos _ db.images).mpr h
      simp [loaderPost, create_image, hany]
    · simp only [storedCount] at h
      have hany := (any_false_iff_count_zero _ db.images).mpr h
      refine ⟨?_, ?_, ?_⟩
      · simp [loaderPost, create_image, hany]
      · simp only [loaderPost, create_image, hany, Bool.false_eq_true,
          if_false, storedCount]
        exact insert_count_one _ _ _ h (by simp)
      · simp only [loaderPost, create_image, hany, Bool.false_eq_true,
          if_false, DataStore.size]
        simp only [List.length_append, List.length_singleton]
        omega
    · simp only [storedCount] at h
      have hany := (any_false_iff_count_zero _ db.images).mpr h
      simp only [loaderPost, create_image, hany, Bool.false_eq_true, if_false]
      have hone : (((db.images ++
          [({ source_file_id := i.source_file_id, url := i.url,
              mimetype := i.mimetype, extracted_text := i.extracted_text,
              detected_objects := some (match i.detected_objects with
                | some (x :: xs) => encodeStrings (x :: xs)
                | _ => "[]"),
              image_metadata := some (match i.image_metadata with
                | some (x :: xs) => encodeDict (x :: xs)
                | _ => "\x7b\x7d") } : ImageRow)]).filter
          (fun a => a.source_file_id == i.source_file_id)).length) = 1 :=
        insert_count_one _ _ _ h (by simp)
      have hany2 := (any_true_iff_count_pos _ _).mpr (le_of_eq hone.symm)
      simp [create_image, hany2]

/-- Example article payload for concrete evaluations. -/
def exArticle : ArticleCreate :=
  { source_file_id := 42, url := "http://example.com/a", title := some "T",
    content := "hello", language := some "en" }

/-- Witness for loader_idempotent_delivery: delivering the same article
payload twice against an empty store leaves exactly one record and the
second call answers "Already exists". -/
theorem loader_idempotent_delivery_witness :
    storedCount
      (loaderPost (loaderPost ⟨[], [], [], []⟩ (.art exArticle)).2
        (.art exArticle)).2 (.art exArticle) = 1 ∧
    (loaderPost (loaderPost ⟨[], [], [], []⟩ (.art exArticle)).2
        (.art exArticle)).1 = .alreadyExists := by
  have h := loader_idempotent_delivery ⟨[], [], [], []⟩ (.art exArticle)
  have h2 := h.2.2 (by simp [storedCount])
  have h1 := h.2.1 (by simp [storedCount])
  exact ⟨h2.2 ▸ h1.2.1, h2.1⟩

/-! ## Delivery Client: retry loop lemmas and C4 -/

lemma sendGo_attempts_le (oracle : Nat → AttemptResult) :
    ∀ fuel i a s, (sendGo oracle fuel i a s).attempts ≤ a + fuel := by
  intro fuel
  induction fuel with
  | zero => intro i a s; simp [sendGo]
  | succ n ih =>
    intro i a s
    simp only [sendGo]
    cases h : oracle i with
    | httpStatus c =>
      by_cases hc : successCode c = true
      · simp only [hc, if_true]
        omega
      · simp only [hc, Bool.false_eq_true, if_false]
        have := ih (i + 1) (a + 1) s
        omega
    | netError =>
      dsimp only
      have := ih (i + 1) (a + 1) (s + 1)
      omega

lemma sendGo_ok_iff (oracle : Nat → AttemptResult) :
    ∀ fuel i a s, (sendGo oracle fuel i a s).ok = true ↔
      ∃ j, j < fuel ∧ attemptOk (oracle (i + j)) = true := by
  intro fuel
  induction fuel with
  | zero => intro i a s; simp [sendGo]
  | succ n ih =>
    intro i a s
    simp only [sendGo]
    cases h : oracle i with
    | httpStatus c =>
      by_cases hc : successCode c = true
      · simp only [hc, if_true]
        constructor
        · intro _
          exact ⟨0, Nat.succ_pos n, by simp [h, attemptOk, hc]⟩
        · intro _
          trivial
      · simp only [hc, Bool.false_eq_true, if_false]
        rw [ih (i + 1) (a + 1) s]
        constructor
        · rintro ⟨j, hj, hok⟩
          refine ⟨j + 1, by omega, ?_⟩
          rwa [show i + (j + 1) = i + 1 + j by omega]
        · rintro ⟨j, hj, hok⟩
          cases j with
          | zero =>
            rw [Nat.add_zero, h] at hok
            simp [attemptOk, hc] at hok
          | succ j1 =>
            refine ⟨j1, by omega, ?_⟩
            rwa [show i + 1 + j1 = i + (j1 + 1) by omega]
    | netError =>
      dsimp only
      rw [ih (i + 1) (a + 1) (s + 1)]
      constructor
      · rintro ⟨j, hj, hok⟩
        refine ⟨j + 1, by omega, ?_⟩
        rwa [show i + (j + 1) = i + 1 + j by omega]
      · rintro ⟨j, hj, hok⟩
        cases j with
        | zero =>
          rw [Nat.add_zero, h] at hok
          simp [attemptOk] at hok
        | succ j1 =>
          refine ⟨j1, by omega, ?_⟩
          rwa [show i + 1 + j1 = i + (j1 + 1) by omega]

lemma sendGo_all_fail (oracle : Nat → AttemptResult) :
    ∀ fuel i a s, (∀ j, j < fuel → attemptOk (oracle (i + j)) = false) →
      sendGo oracle fuel i a s =
        { ok := false, attempts := a + fuel,
          sleeps := s + netCountFrom oracle i fuel } := by
  intro fuel
  induction fuel with
  | zero => intro i a s _; simp [sendGo, netCountFrom]
  | succ n ih =>
    intro i a s hall
    have h0 : attemptOk (oracle i) = false := by
      simpa using hall 0 (Nat.succ_pos n)
    simp only [sendGo]
    cases h : oracle i with
    | httpStatus c =>
      have hc : successCode c = false := by
        rw [h] at h0
        simpa [attemptOk] using h0
      simp only [hc, Bool.false_eq_true, if_false]
      rw [ih (i + 1) (a + 1) s (fun j hj => by
        have := hall (j + 1) (by omega)
        rwa [show i + (j + 1) = i + 1 + j by omega] at this)]
      simp only [netCountFrom, h]
      congr 1 <;> omega
    | netError =>
      dsimp only
      rw [ih (i + 1) (a + 1) (s + 1) (fun j hj => by
        have := hall (j + 1) (by omega)
        rwa [show i + (j + 1) = i + 1 + j by omega] at this)]
      simp only [netCountFrom, h]
      congr 1 <;> omega

lemma sendGo_first_success (oracle : Nat → AttemptResult) :
    ∀ fuel i a s j, j < fuel → attemptOk (oracle (i + j)) = true →
      (∀ k, k < j → attemptOk (oracle (i + k)) = false) →
      sendGo oracle fuel i a s =
        { ok := true, attempts := a + j + 1,
          sleeps := s + netCountFrom oracle i j } := by
  intro fuel
  induction fuel with
  | zero => intro i a s j hj _ _; exact absurd hj (Nat.not_lt_zero j)
  | succ n ih =>
    intro i a s j hj hok hmin
    simp only [sendGo]
    cases j with
    | zero =>
      rw [Nat.add_zero] at hok
      cases h : oracle i with
      | httpStatus c =>
        have hc : successCode c = true := by
          rw [h] at hok
          simpa [attemptOk] using hok
        simp [hc, netCountFrom]
      | netError =>
        rw [h] at hok
        simp [attemptOk] at hok
    | succ j1 =>
      have h0 : attemptOk (oracle i) = false := by
        simpa using hmin 0 (Nat.succ_pos j1)
      cases h : oracle i with
      | httpStatus c =>
        have hc : successCode c = false := by
          rw [h] at h0
          simpa [attemptOk] using h0
        simp only [hc, Bool.false_eq_true, if_false]
        rw [ih (i + 1) (a + 1) s j1 (by omega)
          (by rwa [show i + 1 + j1 = i + (j1 + 1) by omega])
          (fun k hk => by
            have := hmin (k + 1) (by omega)
            rwa [show i + (k + 1) = i + 1 + k by omega] at this)]
        simp only [netCountFrom, h]
        congr 1 <;> omega
      | netError =>
        dsimp only
        rw [ih (i + 1) (a + 1) (s + 1) j1 (by omega)
          (by rwa [show i + 1 + j1 = i + (j1 + 1) by omega])
          (fun k hk => by
            have := hmin (k + 1) (by omega)
            rwa [show i + (k + 1) = i + 1 + k by omega] at this)]
        simp only [netCountFrom, h]
        congr 1 <;> omega

/-- C4 counterexample: the code sleeps after every RequestError, the
third one included, so three consecutive network errors produce three
backoff waits, not two; and a 204 response is not in (200, 201), so a
2xx status other than 200/201 does not count as success. -/
theorem delivery_retry_counterexample :
    ¬ (send_to_loader (fun _ => .netError) =
        { ok := false, attempts := 3, sleeps := 2 }) ∧
    ¬ ((send_to_loader (fun _ => .httpStatus 204)).ok = true) := by
  decide

/-- C4 (amended): send_to_loader makes at most 3 attempts; it returns
success exactly when one of the first three outcomes is a 200, 201 or
409 status, returning at the first such attempt with one backoff wait
per network error before it; when all three attempts fail it returns
failure after exactly 3 attempts with one backoff wait per network
error, the final attempt included — so three consecutive network errors
yield failure after 3 attempts and 3 waits. -/
theorem delivery_retry_policy (oracle : Nat → AttemptResult) :
    (send_to_loader oracle).attempts ≤ 3 ∧
    ((send_to_loader oracle).ok = true ↔
      ∃ j, j < 3 ∧ attemptOk (oracle j) = true) ∧
    ((∀ j, j < 3 → attemptOk (oracle j) = false) →
      send_to_loader oracle =
        { ok := false, attempts := 3, sleeps := netCount oracle 3 }) ∧
    (∀ j, j < 3 → attemptOk (oracle j) = true →
      (∀ k, k < j → attemptOk (oracle k) = false) →
      send_to_loader oracle =
        { ok := true, attempts := j + 1, sleeps := netCount oracle j }) := by
  refine ⟨?_, ?_, ?_, ?_⟩
  · simpa [send_to_loader] using sendGo_attempts_le oracle 3 0 0 0
  · simpa [send_to_loader] using sendGo_ok_iff oracle 3 0 0 0
  · intro h
    simpa [send_to_loader, netCount] using
      sendGo_all_fail oracle 3 0 0 0 (by simpa using h)
  · intro j hj hok hmin
    simpa [send_to_loader, netCount] using
      sendGo_first_success oracle 3 0 0 0 j hj (by simpa using hok)
        (fun k hk => by simpa using hmin k hk)

/-- Witness for delivery_retry_policy: a first-attempt 201 returns
success after one attempt and no backoff wait. -/
theorem delivery_retry_policy_witness :
    send_to_loader (fun _ => .httpStatus 201) =
      { ok := true, attempts := 1, sleeps := 0 } := by
  have h := (delivery_retry_policy (fun _ => .httpStatus 201)).2.2.2 0
    (by omega) (by decide) (fun k hk => absurd hk (Nat.not_lt_zero k))
  simpa [netCount, netCountFrom] using h

/-! ## C3: the claim step and the two-run race -/

/-- Example PENDING (SCRAPED) row for concrete evaluations. -/
def exRowPending : ScrapedFile :=
  { id := 1, source_id := 1, local_path := "scraped_data/1_0_f.html",
    filename := "f.html", mimetype := "text/html", status := .SCRAPED,
    retry_count := 0, notes := none }

/-- C3 counterexample: the batch read and the mark-PROCESSING commit are
two separate store operations, so a second Transform run interleaved
between them selects the very rows the first run is about to claim: from
a store holding one SCRAPED row, the interleaving select-A, select-B
reaches a state where row 1 sits in both runs' batches. -/
theorem claim_step_race_counterexample :
    ∃ s, Reach [exRowPending] s ∧ 1 ∈ s.batchA ∧ 1 ∈ s.batchB := by
  refine ⟨{ db := [exRowPending], pcA := 1, batchA := [1],
            pcB := 1, batchB := [1] }, ?_, ?_, ?_⟩
  · have h1 : TStep (initState [exRowPending])
        { db := [exRowPending], pcA := 1, batchA := [1],
          pcB := 0, batchB := [] } :=
      TStep.selectA (initState [exRowPending]) rfl
    have h2 : TStep
        { db := [exRowPending], pcA := 1, batchA := [1],
          pcB := 0, batchB := [] }
        { db := [exRowPending], pcA := 1, batchA := [1],
          pcB := 1, batchB := [1] } :=
      TStep.selectB
        { db := [exRowPending], pcA := 1, batchA := [1],
          pcB := 0, batchB := [] } rfl
    exact Relation.ReflTransGen.head h1
      (Relation.ReflTransGen.head h2 Relation.ReflTransGen.refl)
  · decide
  · decide

/-- C3 (amended): within a single Transform run, every selected row is
set to PROCESSING in the committed store before any per-file work starts
(main_transform factors through that committed store), and any selection
that happens strictly after the claim commit can no longer pick up the
claimed rows; the select-then-commit sequence itself, however, is not
atomic against a concurrently interleaved run (see the
counterexample). -/
theorem claim_step_amended (sources : List Source) (env : Nat → FileEnv)
    (db : List ScrapedFile) :
    (∀ g ∈ markProcessing (batchIds db) db,
      g.id ∈ batchIds db → g.status = .PROCESSING) ∧
    (∀ f ∈ selectBatch (markProcessing (batchIds db) db),
      f.id ∉ batchIds db) ∧
    main_transform sources env db =
      (selectBatch db).foldl (fun acc f =>
        updateRecord acc (process_file_record (env f.id).fileExists sources
          (env f.id).oracle (env f.id).loader
          { f with status := .PROCESSING }).record)
        (markProcessing (batchIds db) db) := by
  have hmark : ∀ g ∈ markProcessing (batchIds db) db,
      g.id ∈ batchIds db → g.status = .PROCESSING := by
    intro g hg hid
    obtain ⟨f0, hf0, hfn⟩ := List.mem_map.mp hg
    by_cases hmem : f0.id ∈ batchIds db
    · rw [← hfn]
      simp [hmem]
    · have hg0 : g = f0 := by
        rw [← hfn]
        simp [hmem]
      rw [hg0] at hid
      exact absurd hid hmem
  refine ⟨hmark, ?_, rfl⟩
  intro f hf hid
  have hfil := List.mem_filter.mp (List.take_subset 50 _ hf)
  have hstat := hmark f hfil.1 hid
  rw [hstat] at hfil
  simp [statusEligible] at hfil

/-- Extraction oracle whose every strategy fails, for concrete runs. -/
def exOracleFail : ExtractOracle :=
  { html := .error "boom", pdf := .error "boom", docx := .error "boom",
    xlsx := .error "boom", image := .error "boom", readText := .error "boom" }

/-- Witness for claim_step_amended: in the committed store of the claim
step over a one-row SCRAPED store, the selected row is PROCESSING. -/
theorem claim_step_amended_witness :
    ({ exRowPending with status := .PROCESSING } : ScrapedFile).status =
      .PROCESSING :=
  (claim_step_amended [] (fun _ => ⟨false, exOracleFail, fun _ => .netError⟩)
      [exRowPending]).1
    { exRowPending with status := .PROCESSING } (by decide) (by decide)

/-! ## C5: HTTP fetch with status >= 400 -/

/-- Example HTTP source for concrete evaluations. -/
def exSource : Source :=
  { id := 1, url := "http://example.com/feed", source_type := "website",
    schedule := "daily", last_scraped_at := none }

/-- C5 counterexample: a 404 response creates no ScrapedFile row, but it
also does NOT advance the source last-run timestamp — process_http_source
returns before the source update, leaving last_scraped_at untouched
(still none, not the current time 5). -/
theorem http_error_timestamp_counterexample :
    (process_http_source 5 (.response 404 none "") none "feed"
        exSource [] 1).2 = [] ∧
    ¬ ((process_http_source 5 (.response 404 none "") none "feed"
        exSource [] 1).1.last_scraped_at = some 5) := by
  constructor
  · rfl
  · intro h
    simp [process_http_source, exSource] at h

/-- C5 (amended): on any GET response with status >= 400 the fetch
creates no ScrapedFile row and leaves the source — its last-run
timestamp included — completely unchanged; the timestamp is only
advanced on a successful fetch. -/
theorem http_error_no_mutation (now status : Nat) (ct : Option String)
    (body : String) (cd : Option String) (ub : String) (source : Source)
    (db : List ScrapedFile) (nid : Nat) (h : 400 ≤ status) :
    process_http_source now (.response status ct body) cd ub source db nid =
      (source, db) := by
  simp [process_http_source, h]

/-- Witness for http_error_no_mutation at a concrete 404. -/
theorem http_error_no_mutation_witness :
    process_http_source 5 (.response 404 none "") none "feed"
      exSource [] 1 = (exSource, []) :=
  http_error_no_mutation 5 404 none "" none "feed" exSource [] 1 (by omega)

/-! ## C6, C9, C10: the per-file pipeline -/

lemma not_selected_of_not_eligible (f : ScrapedFile)
    (h : statusEligible f.status = false) (db : List ScrapedFile) :
    f ∉ selectBatch db := by
  intro hmem
  have helig := (List.mem_filter.mp (List.take_subset 50 _ hmem)).2
  rw [h] at helig
  exact absurd helig Bool.false_ne_true

/-- C6: with the blob present, the per-file pipeline commits
PROCESSED_SUCCESSFULLY with cleared notes when delivery succeeds
("already exists" included, as send_to_loader folds 409 into True);
commits LOAD_FAILED with a note when delivery fails; and on an
extraction exception commits TRANSFORM_FAILED carrying the exception
text, attempting no delivery. -/
theorem per_file_outcomes (sources : List Source) (o : ExtractOracle)
    (loader : Nat → AttemptResult) (fr : ScrapedFile) :
    (∀ ep, extract_payload fr (resolveSourceUrl sources fr) o = .ok ep →
      (send_to_loader loader).ok = true →
      process_file_record true sources o loader fr =
        { record := { fr with
            status := .PROCESSED_SUCCESSFULLY,
            notes := none },
          delivered := some ep, extractionAttempted := true }) ∧
    (∀ ep, extract_payload fr (resolveSourceUrl sources fr) o = .ok ep →
      (send_to_loader loader).ok = false →
      process_file_record true sources o loader fr =
        { record := { fr with
            status := .LOAD_FAILED,
            notes := some "API unreachable or returned error" },
          delivered := some ep, extractionAttempted := true }) ∧
    (∀ msg, extract_payload fr (resolveSourceUrl sources fr) o = .error msg →
      process_file_record true sources o loader fr =
        { record := { fr with
            status := .TRANSFORM_FAILED,
            notes := some msg },
          delivered := none, extractionAttempted := true }) := by
  refine ⟨?_, ?_, ?_⟩
  · intro ep hx hs
    simp [process_file_record, hx, hs]
  · intro ep hx hs
    simp [process_file_record, hx, hs]
  · intro msg hx
    simp [process_file_record, hx]

/-- A ScrapedFile whose mimetype dispatches to the HTML strategy. -/
def exHtmlFile : ScrapedFile :=
  { id := 1, source_id := 1, local_path := "scraped_data/1_0_f.html",
    filename := "f.html", mimetype := "text/html", status := .PROCESSING,
    retry_count := 0, notes := none }

/-- Oracle whose HTML strategy answers a small title and body. -/
def exOracleHtml : ExtractOracle :=
  { html := .ok ("T", "hello"), pdf := .error "boom", docx := .error "boom",
    xlsx := .error "boom", image := .error "boom", readText := .error "boom" }

/-- Witness for per_file_outcomes: a concrete HTML file whose delivery
answers 201 ends PROCESSED_SUCCESSFULLY with cleared notes. -/
theorem per_file_outcomes_witness :
    process_file_record true [] exOracleHtml (fun _ => .httpStatus 201)
        exHtmlFile =
      { record := { exHtmlFile with
          status := .PROCESSED_SUCCESSFULLY,
          notes := none },
        delivered := some ("articles",
          { source_file_id := 1, url := "unknown_source",
            mimetype := "text/html", body := .article "T" "hello" "en" }),
        extractionAttempted := true } := by
  have h := (per_file_outcomes [] exOracleHtml (fun _ => .httpStatus 201)
    exHtmlFile).1
    ("articles",
      { source_file_id := 1, url := "unknown_source",
        mimetype := "text/html", body := .article "T" "hello" "en" })
    (by rfl) (by rfl)
  exact h

/-- C9: a selected row whose blob is gone from disk commits
TRANSFORM_FAILED with the "File not found on disk" note, attempts
neither extraction nor delivery, and — TRANSFORM_FAILED being outside
the batch filter — is absent from every future batch selection. -/
theorem missing_blob_terminal (sources : List Source) (o : ExtractOracle)
    (loader : Nat → AttemptResult) (fr : ScrapedFile) :
    (process_file_record false sources o loader fr).record.status =
      .TRANSFORM_FAILED ∧
    (process_file_record false sources o loader fr).record.notes =
      some "File not found on disk" ∧
    (process_file_record false sources o loader fr).delivered = none ∧
    (process_file_record false sources o loader fr).extractionAttempted =
      false ∧
    ∀ db, (process_file_record false sources o loader fr).record ∉
      selectBatch db := by
  refine ⟨rfl, rfl, rfl, rfl, ?_⟩
  intro db
  exact not_selected_of_not_eligible
    (process_file_record false sources o loader fr).record rfl db

/-- Witness for missing_blob_terminal at a concrete row: the committed
row is TRANSFORM_FAILED and is not selected from a store holding it. -/
theorem missing_blob_terminal_witness :
    (process_file_record false [] exOracleHtml (fun _ => .httpStatus 201)
        exHtmlFile).record.status = .TRANSFORM_FAILED ∧
    (process_file_record false [] exOracleHtml (fun _ => .httpStatus 201)
        exHtmlFile).record ∉
      selectBatch [(process_file_record false [] exOracleHtml
        (fun _ => .httpStatus 201) exHtmlFile).record] := by
  have h := missing_blob_terminal [] exOracleHtml
    (fun _ => .httpStatus 201) exHtmlFile
  exact ⟨h.1, h.2.2.2.2 _⟩

lemma map_ok_url (u : String) {β : Type} (m : Except String β)
    (f : β → String × Payload) (ep : String × Payload)
    (h : Except.map f m = .ok ep) (hf : ∀ b, (f b).2.url = u) :
    ep.2.url = u := by
  cases m with
  | error e => simp [Except.map] at h
  | ok b =>
    simp only [Except.map, Except.ok.injEq] at h
    rw [← h]
    exact hf b

lemma extract_payload_url (fr : ScrapedFile) (u : String)
    (o : ExtractOracle) (ep : String × Payload)
    (h : extract_payload fr u o = .ok ep) : ep.2.url = u := by
  simp only [extract_payload] at h
  split at h
  · exact map_ok_url u _ _ _ h (fun b => rfl)
  · split at h
    · exact map_ok_url u _ _ _ h (fun b => rfl)
    · split at h
      · exact map_ok_url u _ _ _ h (fun b => rfl)
      · split at h
        · exact map_ok_url u _ _ _ h (fun b => rfl)
        · split at h
          · exact map_ok_url u _ _ _ h (fun b => rfl)
          · exact absurd h (by simp)

/-- C10: when no Source row matches the file's source_id, the pipeline
does not fail: the payload is built with the placeholder origin URL
"unknown_source", delivery proceeds, and the row ends
PROCESSED_SUCCESSFULLY or LOAD_FAILED according to delivery alone. -/
theorem missing_source_placeholder (sources : List Source)
    (o : ExtractOracle) (loader : Nat → AttemptResult) (fr : ScrapedFile)
    (ep : String × Payload)
    (hs : sources.find? (fun s => s.id == fr.source_id) = none)
    (hx : extract_payload fr "unknown_source" o = .ok ep) :
    (process_file_record true sources o loader fr).delivered = some ep ∧
    ep.2.url = "unknown_source" ∧
    ((process_file_record true sources o loader fr).record.status =
        .PROCESSED_SUCCESSFULLY ∨
     (process_file_record true sources o loader fr).record.status =
        .LOAD_FAILED) := by
  have hu : resolveSourceUrl sources fr = "unknown_source" := by
    simp [resolveSourceUrl, hs]
  refine ⟨?_, extract_payload_url fr _ o ep hx, ?_⟩
  · cases hsend : (send_to_loader loader).ok with
    | true => simp [process_file_record, hu, hx, hsend]
    | false => simp [process_file_record, hu, hx, hsend]
  · cases hsend : (send_to_loader loader).ok with
    | true =>
      left
      simp [process_file_record, hu, hx, hsend]
    | false =>
      right
      simp [process_file_record, hu, hx, hsend]

/-- Witness for missing_source_placeholder: with an empty Source table a
concrete HTML file is still extracted, carries the placeholder URL, and
is delivered. -/
theorem missing_source_placeholder_witness :
    (process_file_record true [] exOracleHtml (fun _ => .httpStatus 201)
        exHtmlFile).delivered =
      some ("articles",
        { source_file_id := 1, url := "unknown_source",
          mimetype := "text/html", body := .article "T" "hello" "en" }) := by
  have h := missing_source_placeholder [] exOracleHtml
    (fun _ => .httpStatus 201) exHtmlFile
    ("articles",
      { source_file_id := 1, url := "unknown_source",
        mimetype := "text/html", body := .article "T" "hello" "en" })
    (by rfl) (by rfl)
  exact h.1

/-! ## C8: extraction dispatch by mimetype -/

/-- C8: the dispatch table of process_file_record over the lower-cased
mimetype, priority order made explicit: a mimetype containing "html"
goes to the HTML strategy and /articles; otherwise "pdf" to pypdf and
/documents; otherwise "wordprocessing" to python-docx and /documents;
otherwise "spreadsheet" or "excel" to openpyxl rows and /spreadsheets;
otherwise "image" to OCR text, the stub object-detection list and EXIF
metadata for /images; otherwise "text" to the plain-text /documents
fallback; any remaining mimetype raises "Unsupported mimetype", which
the caller converts to terminal TRANSFORM_FAILED. -/
theorem mimetype_dispatch (fr : ScrapedFile) (u : String)
    (o : ExtractOracle) :
    (strContains (strToLower fr.mimetype) "html" = true →
      extract_payload fr u o = o.html.map (fun tc => ("articles",
        ({ source_file_id := fr.id, url := u,
           mimetype := strToLower fr.mimetype,
           body := .article tc.1 tc.2 "en" } : Payload)))) ∧
    (strContains (strToLower fr.mimetype) "html" = false →
     strContains (strToLower fr.mimetype) "pdf" = true →
      extract_payload fr u o = o.pdf.map (fun c => ("documents",
        ({ source_file_id := fr.id, url := u,
           mimetype := strToLower fr.mimetype,
           body := .document fr.filename c } : Payload)))) ∧
    (strContains (strToLower fr.mimetype) "html" = false →
     strContains (strToLower fr.mimetype) "pdf" = false →
     strContains (strToLower fr.mimetype) "wordprocessing" = true →
      extract_payload fr u o = o.docx.map (fun c => ("documents",
        ({ source_file_id := fr.id, url := u,
           mimetype := strToLower fr.mimetype,
           body := .document fr.filename c } : Payload)))) ∧
    (strContains (strToLower fr.mimetype) "html" = false →
     strContains (strToLower fr.mimetype) "pdf" = false →
     strContains (strToLower fr.mimetype) "wordprocessing" = false →
     (strContains (strToLower fr.mimetype) "spreadsheet" = true ∨
      strContains (strToLower fr.mimetype) "excel" = true) →
      extract_payload fr u o = o.xlsx.map (fun d => ("spreadsheets",
        ({ source_file_id := fr.id, url := u,
           mimetype := strToLower fr.mimetype,
           body := .spreadsheet fr.filename d } : Payload)))) ∧
    (strContains (strToLower fr.mimetype) "html" = false →
     strContains (strToLower fr.mimetype) "pdf" = false →
     strContains (strToLower fr.mimetype) "wordprocessing" = false →
     strContains (strToLower fr.mimetype) "spreadsheet" = false →
     strContains (strToLower fr.mimetype) "excel" = false →
     strContains (strToLower fr.mimetype) "image" = true →
      extract_payload fr u o = (process_image o.image).map (fun d =>
        ("images",
        ({ source_file_id := fr.id, url := u,
           mimetype := strToLower fr.mimetype,
           body := .image d.extracted_text d.detected_objects
             d.metadata } : Payload)))) ∧
    (strContains (strToLower fr.mimetype) "html" = false →
     strContains (strToLower fr.mimetype) "pdf" = false →
     strContains (strToLower fr.mimetype) "wordprocessing" = false →
     strContains (strToLower fr.mimetype) "spreadsheet" = false →
     strContains (strToLower fr.mimetype) "excel" = false →
     strContains (strToLower fr.mimetype) "image" = false →
     strContains (strToLower fr.mimetype) "text" = true →
      extract_payload fr u o = o.readText.map (fun c => ("documents",
        ({ source_file_id := fr.id, url := u,
           mimetype := strToLower fr.mimetype,
           body := .document fr.filename c } : Payload)))) ∧
    (strContains (strToLower fr.mimetype) "html" = false →
     strContains (strToLower fr.mimetype) "pdf" = false →
     strContains (strToLower fr.mimetype) "wordprocessing" = false →
     strContains (strToLower fr.mimetype) "spreadsheet" = false →
     strContains (strToLower fr.mimetype) "excel" = false →
     strContains (strToLower fr.mimetype) "image" = false →
     strContains (strToLower fr.mimetype) "text" = false →
      extract_payload fr u o =
        .error ("Unsupported mimetype: " ++ strToLower fr.mimetype)) := by
  refine ⟨?_, ?_, ?_, ?_, ?_, ?_, ?_⟩
  · intro h1
    simp [extract_payload, h1]
  · intro h1 h2
    simp [extract_payload, h1, h2]
  · intro h1 h2 h3
    simp [extract_payload, h1, h2, h3]
  · intro h1 h2 h3 h4
    rcases h4 with h4 | h4 <;> simp [extract_payload, h1, h2, h3, h4]
  · intro h1 h2 h3 h4 h5 h6
    simp [extract_payload, h1, h2, h3, h4, h5, h6]
  · intro h1 h2 h3 h4 h5 h6 h7
    simp [extract_payload, h1, h2, h3, h4, h5, h6, h7]
  · intro h1 h2 h3 h4 h5 h6 h7
    simp [extract_payload, h1, h2, h3, h4, h5, h6, h7]

/-- Witness for mimetype_dispatch: a text/html file routes to the HTML
strategy and the /articles endpoint. -/
theorem mimetype_dispatch_witness :
    extract_payload exHtmlFile "http://e" exOracleHtml =
      exOracleHtml.html.map (fun tc => ("articles",
        ({ source_file_id := exHtmlFile.id, url := "http://e",
           mimetype := strToLower exHtmlFile.mimetype,
           body := .article tc.1 tc.2 "en" } : Payload))) :=
  (mimetype_dispatch exHtmlFile "http://e" exOracleHtml).1 (by rfl)

/-! ## C7: local-directory sweep dedup and the uniqueness invariant -/

lemma ingest_entry_preserves (now srcId : Nat)
    (acc : List ScrapedFile × Nat) (e : DirEntry)
    (h : uniqueActive acc.1) :
    uniqueActive (ingest_entry now srcId acc e).1 := by
  by_cases hact : hasActive acc.1 srcId e.name = true
  · simpa [ingest_entry, hact] using h
  · have hact0 : hasActive acc.1 srcId e.name = false := by
      cases hb : hasActive acc.1 srcId e.name
      · rfl
      · exact absurd hb hact
    simp only [ingest_entry, hact0, Bool.false_eq_true, if_false]
    intro src fn
    unfold countActive
    rw [List.filter_append, List.length_append]
    by_cases hp : (freshRow now srcId acc.2 e).source_id == src &&
        (freshRow now srcId acc.2 e).filename == fn &&
        ((freshRow now srcId acc.2 e).status == Status.SCRAPED ||
         (freshRow now srcId acc.2 e).status == Status.PROCESSING) = true
    · have hsrc : srcId = src := by
        have := hp
        simp [freshRow] at this
        exact this.1
      have hfne : e.name = fn := by
        have := hp
        simp [freshRow] at this
        exact this.2
      subst hsrc
      subst hfne
      have hany : acc.1.any (fun f => f.source_id == srcId &&
          f.filename == e.name &&
          (f.status == Status.SCRAPED || f.status == Status.PROCESSING)) =
            false := by
        simpa [hasActive] using hact0
      have h0 := (any_false_iff_count_zero _ _).mp hany
      rw [h0]
      simp [freshRow]
    · have hp0 : ((freshRow now srcId acc.2 e).source_id == src &&
          (freshRow now srcId acc.2 e).filename == fn &&
          ((freshRow now srcId acc.2 e).status == Status.SCRAPED ||
           (freshRow now srcId acc.2 e).status == Status.PROCESSING)) =
            false := by
        cases hb : ((freshRow now srcId acc.2 e).source_id == src &&
            (freshRow now srcId acc.2 e).filename == fn &&
            ((freshRow now srcId acc.2 e).status == Status.SCRAPED ||
             (freshRow now srcId acc.2 e).status == Status.PROCESSING))
        · rfl
        · exact absurd hb hp
      have hcnt := h src fn
      unfold countActive at hcnt
      simp [List.filter_cons, hp0]
      exact hcnt

lemma sweep_preserves (now srcId : Nat) :
    ∀ (entries : List DirEntry) (acc : List ScrapedFile × Nat),
      uniqueActive acc.1 →
      uniqueActive ((entries.foldl (ingest_entry now srcId) acc)).1 := by
  intro entries
  induction entries with
  | nil => intro acc h; simpa using h
  | cons e es ih =>
    intro acc h
    simp only [List.foldl_cons]
    exact ih _ (ingest_entry_preserves now srcId acc e h)

/-- C7: in a local-directory sweep, a file whose (source, filename)
already has a row in SCRAPED (PENDING) or PROCESSING (IN_PROGRESS)
state is skipped — the store is unchanged for it; otherwise exactly one
new row is appended, in status SCRAPED with the size+mtime signature in
its notes, making that (source, filename) have exactly one active row;
and the sweep as a whole preserves the invariant that every
(source, filename) pair has at most one active row. -/
theorem local_sweep_dedup (now : Nat) (dirExists : Bool) (source : Source)
    (entries : List DirEntry) (db : List ScrapedFile) (nid : Nat) :
    (∀ acc : List ScrapedFile × Nat, ∀ e : DirEntry,
      (hasActive acc.1 source.id e.name = true →
        ingest_entry now source.id acc e = acc) ∧
      (hasActive acc.1 source.id e.name = false →
        ingest_entry now source.id acc e =
          (acc.1 ++ [freshRow now source.id acc.2 e], acc.2 + 1) ∧
        (freshRow now source.id acc.2 e).status = .SCRAPED ∧
        (freshRow now source.id acc.2 e).notes =
          some (entrySignature e) ∧
        countActive (acc.1 ++ [freshRow now source.id acc.2 e])
          source.id e.name = 1)) ∧
    (uniqueActive db →
      uniqueActive (process_local_source now dirExists source entries db
        nid).2.1) := by
  constructor
  · intro acc e
    constructor
    · intro h
      simp [ingest_entry, h]
    · intro h
      refine ⟨by simp [ingest_entry, h], rfl, rfl, ?_⟩
      have hany : acc.1.any (fun f => f.source_id == source.id &&
          f.filename == e.name &&
          (f.status == Status.SCRAPED || f.status == Status.PROCESSING)) =
            false := by
        simpa [hasActive] using h
      have h0 := (any_false_iff_count_zero _ _).mp hany
      unfold countActive
      rw [List.filter_append, List.length_append, h0]
      simp [freshRow]
  · intro hu
    cases dirExists with
    | true =>
      show uniqueActive
        ((entries.foldl (ingest_entry now source.id) (db, nid)).1)
      exact sweep_preserves now source.id entries (db, nid) hu
    | false =>
      simpa [process_local_source] using hu

/-- Example directory entry for concrete evaluations. -/
def exEntry : DirEntry :=
  { name := "a.txt", size := 10, mtime := 100,
    guessedMime := some "text/plain" }

/-- Witness for local_sweep_dedup: sweeping one file into an empty store
preserves the uniqueness invariant. -/
theorem local_sweep_dedup_witness :
    uniqueActive (process_local_source 0 true exSource [exEntry] [] 1).2.1 :=
  (local_sweep_dedup 0 true exSource [exEntry] [] 1).2
    (fun src fn => by simp [countActive])

end NewsWeaver
